import Mathlib

/-!
Verification development for the emergence-kernel core: a shallow embedding
of the buddy physical memory manager (src/kernel/pmm.c), the Page Control
Data system (src/kernel/pcd.c), the nested-kernel monitor
(src/kernel/monitor/monitor.c), the page-fault policy (src/arch/x86_64/idt.c)
and the AP bring-up path (src/kernel/smp.c), together with theorems settling
the spec claims about them.

Machine integers are modelled as Nat; the C sources never rely on 64-bit
wraparound in the modelled paths (addresses and counters stay far below
2^64), and explicit truncations such as the uint8_t casts in
monitor_call_handler are modelled by a mod 256.  The intrusive circular
lists of src/kernel/list.h are modelled as Lean lists: list_push_back is
tail append, list_for_each visits front to back, and the per-order free
lists hold the block descriptors themselves (descriptor identity is
captured by the descriptor value, which is unique per live block).
-/

/-! ### Buddy PMM (src/kernel/pmm.c, src/kernel/pmm.h) -/

/-- PAGE_SIZE from pmm.h. -/
def PAGE_SIZE : Nat := 4096

/-- PAGE_SHIFT from pmm.h. -/
def PAGE_SHIFT : Nat := 12

/-- MAX_ORDER from pmm.h: orders 0..9 (2^9 pages = 2 MiB). -/
def MAX_ORDER : Nat := 9

/-- MAX_BLOCK_DESC from pmm.h: size of the static descriptor pool. -/
def MAX_BLOCK_DESC : Nat := 1024

/-- block_info_t: one buddy-block descriptor (base address, order,
allocated flag).  The intrusive list_head member is represented by the
block's position inside the Lean list that models the containing list. -/
structure BlockInfo where
  baseAddr : Nat
  order : Nat
  allocated : Bool
deriving DecidableEq, Repr

/-- free_list_t: the list of free blocks of one order plus its count
field (the count is maintained exactly as the C code does, alongside
every list operation). -/
structure FreeList where
  list : List BlockInfo
  count : Nat
deriving DecidableEq, Repr

/-- pmm_state_t: free lists indexed by order 0..MAX_ORDER, the allocated
list, page counters and the descriptor-pool usage counter.  The spinlock
only serialises access and is not modelled; blocks[] is modelled by the
lists themselves plus block_count. -/
structure PmmState where
  freeLists : List FreeList
  allocatedBlocks : List BlockInfo
  totalPages : Nat
  freePages : Nat
  blockCount : Nat
deriving DecidableEq, Repr

/-- Read free_lists[o]; out-of-range reads (never performed by the C
code on well-formed states) give an empty list. -/
def flGet (ls : List FreeList) (o : Nat) : FreeList :=
  ls.getD o { list := [], count := 0 }

/-- Write free_lists[o] (no-op out of range, mirroring that the C code
only ever indexes 0..MAX_ORDER). -/
def flSet (ls : List FreeList) (o : Nat) (f : FreeList) : List FreeList :=
  ls.set o f

/-- The PMM state right after the zero-initialisation part of pmm_init
(before multiboot parsing and region reservation). -/
def pmm_initial_state : PmmState :=
  { freeLists := List.replicate 10 { list := [], count := 0 }
  , allocatedBlocks := []
  , totalPages := 0
  , freePages := 0
  , blockCount := 0 }

/-- get_buddy_addr: addr XOR (PAGE_SIZE << order). -/
def get_buddy_addr (addr order : Nat) : Nat :=
  addr ^^^ (PAGE_SIZE <<< order)

/-- list_remove on a free list modelled by value: removes the first
occurrence of the given descriptor value (live descriptors in one list
are pairwise distinct, so this matches removing the node itself). -/
def list_remove : List BlockInfo → BlockInfo → List BlockInfo
  | [], _ => []
  | x :: xs, b => if x = b then xs else x :: list_remove xs b

/-- The list_remove plus count-decrement pair that pmm.c performs when it
unlinks a block from free_lists[order]. -/
def remove_from_free_list (s : PmmState) (o : Nat) (b : BlockInfo) : PmmState :=
  let fl := flGet s.freeLists o
  { s with freeLists := flSet s.freeLists o { list := list_remove fl.list b, count := fl.count - 1 } }

/-- The list_push_back plus count-increment pair on free_lists[order]. -/
def push_free_list (s : PmmState) (o : Nat) (b : BlockInfo) : PmmState :=
  let fl := flGet s.freeLists o
  { s with freeLists := flSet s.freeLists o { list := fl.list ++ [b], count := fl.count + 1 } }

/-- add_free_block: allocate a descriptor from the pool (silently dropped
when the pool is exhausted, as in pmm.c which only logs), link it into
free_lists[order] at the back and add 2^order to free_pages. -/
def add_free_block (s : PmmState) (addr order : Nat) : PmmState :=
  if MAX_BLOCK_DESC ≤ s.blockCount then s
  else
    let b : BlockInfo := { baseAddr := addr, order := order, allocated := false }
    let s1 := { s with blockCount := s.blockCount + 1 }
    let s2 := push_free_list s1 order b
    { s2 with freePages := s2.freePages + (1 <<< order) }

/-- remove_free_block: pop the front of free_lists[order] and subtract
2^order from free_pages.  This is the only function in pmm.c that ever
decreases free_pages on the allocation side, and it is never called. -/
def remove_free_block (s : PmmState) (order : Nat) : PmmState × Option BlockInfo :=
  match (flGet s.freeLists order).list with
  | [] => (s, none)
  | b :: rest =>
    let fl := flGet s.freeLists order
    ({ s with freeLists := flSet s.freeLists order { list := rest, count := fl.count - 1 }
            , freePages := s.freePages - (1 <<< order) }
    , some b)

/-- Tail section of split_block: unlink the block from its free list,
mark it allocated and append it to the allocated list. -/
def split_finish (s : PmmState) (b : BlockInfo) : PmmState × BlockInfo :=
  let s1 := remove_from_free_list s b.order b
  let b1 := { b with allocated := true }
  ({ s1 with allocatedBlocks := s1.allocatedBlocks ++ [b1] }, b1)

/-- The while loop of split_block: while block->order > target, unlink
the block, lower its order, create the high-half buddy via
add_free_block, and push the block onto the lower free list.  fuel is
instantiated with the block's starting order, an upper bound on the
number of iterations, so the fuel never runs out before the guard
fails. -/
def split_loop (s : PmmState) (b : BlockInfo) (target : Nat) : Nat → PmmState × BlockInfo
  | 0 => split_finish s b
  | fuel + 1 =>
    if target < b.order then
      let s1 := remove_from_free_list s b.order b
      let b1 := { b with order := b.order - 1 }
      let s2 := add_free_block s1 (b1.baseAddr + (PAGE_SIZE <<< b1.order)) b1.order
      let s3 := push_free_list s2 b1.order b1
      split_loop s3 b1 target fuel
    else split_finish s b

/-- split_block from pmm.c. -/
def split_block (s : PmmState) (b : BlockInfo) (target : Nat) : PmmState × BlockInfo :=
  split_loop s b target b.order

/-- The search loop of find_free_block: scan free_lists[o] for
o = target..MAX_ORDER and split the first block found.  fuel = 10 covers
every possible iteration count. -/
def find_loop (s : PmmState) (o target : Nat) : Nat → PmmState × Option BlockInfo
  | 0 => (s, none)
  | fuel + 1 =>
    if o ≤ MAX_ORDER then
      match (flGet s.freeLists o).list with
      | [] => find_loop s (o + 1) target fuel
      | b :: _ =>
        let r := split_block s b target
        (r.1, some r.2)
    else (s, none)

/-- find_free_block from pmm.c. -/
def find_free_block (s : PmmState) (order : Nat) : PmmState × Option BlockInfo :=
  find_loop s order order 10

/-- The while loop of coalesce_block: while order < MAX_ORDER, look for
the buddy in the same-order free list; if found, unlink it, keep the
lower base address and raise the order.  fuel = MAX_ORDER bounds the
iterations. -/
def coalesce_loop (s : PmmState) (b : BlockInfo) : Nat → PmmState × BlockInfo
  | 0 => (s, b)
  | fuel + 1 =>
    if b.order < MAX_ORDER then
      let buddyAddr := get_buddy_addr b.baseAddr b.order
      match (flGet s.freeLists b.order).list.find? (fun x => x.baseAddr == buddyAddr && !x.allocated) with
      | none => (s, b)
      | some buddy =>
        let s1 := remove_from_free_list s b.order buddy
        let b1 := { b with baseAddr := if buddyAddr < b.baseAddr then buddyAddr else b.baseAddr
                         , order := b.order + 1 }
        coalesce_loop s1 b1 fuel
    else (s, b)

/-- coalesce_block from pmm.c: coalesce upwards, then mark the block free,
push it to the back of its free list and add 2^order to free_pages. -/
def coalesce_block (s : PmmState) (b : BlockInfo) : PmmState :=
  let r := coalesce_loop s b MAX_ORDER
  let b1 := { r.2 with allocated := false }
  let s1 := push_free_list r.1 b1.order b1
  { s1 with freePages := s1.freePages + (1 <<< b1.order) }

/-- find_allocated_block: linear scan of the allocated list by base
address. -/
def find_allocated_block (s : PmmState) (addr : Nat) : Option BlockInfo :=
  s.allocatedBlocks.find? (fun b => b.baseAddr == addr)

/-- pmm_alloc: NULL (0) for order > MAX_ORDER or when no block is found,
otherwise the base address of the split block. -/
def pmm_alloc (s : PmmState) (order : Nat) : PmmState × Nat :=
  if MAX_ORDER < order then (s, 0)
  else
    match find_free_block s order with
    | (s1, some b) => (s1, b.baseAddr)
    | (s1, none) => (s1, 0)

/-- pmm_free: look the block up in the allocated list (the order argument
is only range-checked), unlink it and coalesce. -/
def pmm_free (s : PmmState) (addr order : Nat) : PmmState :=
  if MAX_ORDER < order then s
  else
    match find_allocated_block s addr with
    | none => s
    | some b => coalesce_block { s with allocatedBlocks := list_remove s.allocatedBlocks b } b

/-- pmm_get_free_pages. -/
def pmm_get_free_pages (s : PmmState) : Nat := s.freePages

/-- pmm_get_total_pages. -/
def pmm_get_total_pages (s : PmmState) : Nat := s.totalPages

/-- Round up to a page boundary, the Nat form of
(a + PAGE_SIZE - 1) AND NOT (PAGE_SIZE - 1). -/
def page_align_up (a : Nat) : Nat := ((a + (PAGE_SIZE - 1)) >>> PAGE_SHIFT) <<< PAGE_SHIFT

/-- Round down to a page boundary, the Nat form of
a AND NOT (PAGE_SIZE - 1). -/
def page_align_down (a : Nat) : Nat := (a >>> PAGE_SHIFT) <<< PAGE_SHIFT

/-- The inner for loop of pmm_add_region: the largest order in 9..1 whose
block size fits in the remainder and whose base is aligned to it
((addr AND (block_size-1)) == 0 is addr % block_size = 0 for a power of
two). -/
def pick_order (remaining addr : Nat) : Nat → Option Nat
  | 0 => none
  | o + 1 =>
    if (PAGE_SIZE <<< (o + 1)) ≤ remaining ∧ addr % (PAGE_SIZE <<< (o + 1)) = 0
    then some (o + 1)
    else pick_order remaining addr o

/-- The outer while loop of pmm_add_region: add the largest aligned block
that fits, else a single page, else stop.  fuel is instantiated with the
page count of the window, an upper bound on the iterations. -/
def add_region_loop (s : PmmState) (addr endAddr : Nat) : Nat → PmmState
  | 0 => s
  | fuel + 1 =>
    if addr < endAddr then
      let remaining := endAddr - addr
      match pick_order remaining addr MAX_ORDER with
      | some o => add_region_loop (add_free_block s addr o) (addr + (PAGE_SIZE <<< o)) endAddr fuel
      | none =>
        if PAGE_SIZE ≤ remaining then
          add_region_loop (add_free_block s addr 0) (addr + PAGE_SIZE) endAddr fuel
        else s
    else s

/-- pmm_add_region from pmm.c: align the window, populate the free lists
with maximal aligned blocks, and add the page count to total_pages. -/
def pmm_add_region (s : PmmState) (base size : Nat) : PmmState :=
  let base1 := page_align_up base
  let size1 := page_align_down size
  if size1 < PAGE_SIZE then s
  else
    let endAddr := base1 + size1
    let s1 := add_region_loop s base1 endAddr (size1 >>> PAGE_SHIFT)
    { s1 with totalPages := s1.totalPages + (size1 >>> PAGE_SHIFT) }

example : (pmm_add_region pmm_initial_state 0x1000 0x1000).freePages = 1 := by decide
example :
    (pmm_alloc (pmm_add_region pmm_initial_state 0x1000 0x1000) 0).2 = 0x1000 := by decide

/-! ### Page Control Data (src/kernel/pcd.c, src/kernel/pcd.h) -/

/-- PCD_TYPE_OK_NORMAL: outer-kernel normal pages. -/
def PCD_TYPE_OK_NORMAL : Nat := 0

/-- PCD_TYPE_NK_NORMAL: monitor private pages (the default). -/
def PCD_TYPE_NK_NORMAL : Nat := 1

/-- PCD_TYPE_NK_PGTABLE: page-table pages. -/
def PCD_TYPE_NK_PGTABLE : Nat := 2

/-- PCD_TYPE_NK_IO: I/O register mappings (tracked, not enforced). -/
def PCD_TYPE_NK_IO : Nat := 3

/-- PCD_TYPE_MAX from pcd.h. -/
def PCD_TYPE_MAX : Nat := 3

/-- pcd_t: the 8-byte per-page metadata record. -/
structure PcdEntry where
  type : Nat
  flags : Nat
  reserved : Nat
  refcount : Nat
deriving DecidableEq, Repr

/-- The pcd_t value used as the getD default for reads the C code never
performs on well-formed states (pages.length = maxPages). -/
def pcd_default_entry : PcdEntry :=
  { type := PCD_TYPE_NK_NORMAL, flags := 0, reserved := 0, refcount := 0 }

/-- pcd_state_t: the dynamically sized PCD array with its window
(base_page, max_pages) and the initialized flag; the spinlock only
serialises access and is not modelled. -/
structure PcdState where
  pages : List PcdEntry
  maxPages : Nat
  basePage : Nat
  initialized : Bool
deriving DecidableEq, Repr

/-- phys_to_page: physical address to page frame number. -/
def phys_to_page (a : Nat) : Nat := a >>> PAGE_SHIFT

/-- pcd_get_index: clamped index of a physical address into the PCD
array (0 below the window, max_pages - 1 above it). -/
def pcd_get_index (s : PcdState) (a : Nat) : Nat :=
  if phys_to_page a < s.basePage then 0
  else if s.maxPages ≤ phys_to_page a - s.basePage then s.maxPages - 1
  else phys_to_page a - s.basePage

/-- pcd_is_managed: whether the page frame of the address lies inside
the managed window. -/
def pcd_is_managed (s : PcdState) (a : Nat) : Bool :=
  decide (s.basePage ≤ phys_to_page a) && decide (phys_to_page a < s.basePage + s.maxPages)

/-- The assignment pages[index].type = type of pcd_set_type, as an
update of the whole 8-byte entry (the other fields are kept). -/
def pcd_entry_with_type (e : PcdEntry) (ty : Nat) : PcdEntry :=
  { e with type := ty }

/-- The PCD array after pcd_set_type's successful store
pages[index].type = type at the aligned address. -/
def pcd_pages_updated (s : PcdState) (phys ty : Nat) : List PcdEntry :=
  s.pages.set (pcd_get_index s (page_align_down phys))
    (pcd_entry_with_type
      (s.pages.getD (pcd_get_index s (page_align_down phys)) pcd_default_entry) ty)

/-- pcd_set_type from pcd.c: no-op before pcd_init, for an invalid type
(outside PCD_TYPE_MIN..PCD_TYPE_MAX; the lower bound is vacuous for an
unsigned type) and for unmanaged addresses; otherwise overwrite the type
field of the entry at the aligned address. -/
def pcd_set_type (s : PcdState) (phys ty : Nat) : PcdState :=
  if s.initialized = false then s
  else if PCD_TYPE_MAX < ty then s
  else if pcd_is_managed s (page_align_down phys) = false then s
  else { s with pages := pcd_pages_updated s phys ty }

/-- pcd_get_type from pcd.c: total; NK_NORMAL before pcd_init and for
unmanaged addresses, otherwise the stored type of the aligned address. -/
def pcd_get_type (s : PcdState) (phys : Nat) : Nat :=
  if s.initialized = false then PCD_TYPE_NK_NORMAL
  else if pcd_is_managed s (page_align_down phys) = false then PCD_TYPE_NK_NORMAL
  else (s.pages.getD (pcd_get_index s (page_align_down phys)) pcd_default_entry).type

/-! ### Nested-kernel monitor (src/kernel/monitor/monitor.c) -/

/-- X86_PTE_PRESENT from paging.h. -/
def X86_PTE_PRESENT : Nat := 1

/-- X86_PTE_WRITABLE from paging.h. -/
def X86_PTE_WRITABLE : Nat := 2

/-- monitor_ret_t: { result : u64, error : int }. -/
structure MonitorRet where
  result : Nat
  error : Int
deriving DecidableEq, Repr

/-- monitor_call_t. -/
inductive MonitorCall where
  | allocPhys
  | freePhys
  | setPageType
  | getPageType
  | mapPage
  | unmapPage
  | allocPgtable
deriving DecidableEq, Repr

/-- The monitor-visible machine state: the PMM and PCD states plus the
unprivileged-view page-table contents reachable from unpriv_pml4
(abstracted to the set of installed leaf translations virt -> entry) and
the trace of invlpg invalidations issued.  The code paths modelled here
(monitor_call_handler and its callees) never touch the two page-table
components: monitor_map_page validates the PCD type only and leaves the
translation update unimplemented. -/
structure MonitorState where
  pmm : PmmState
  pcd : PcdState
  unprivPtes : List (Nat × Nat)
  tlbInvalidations : List Nat
deriving DecidableEq, Repr

/-- 2^64 as an Int, for the implicit int-to-uint64_t conversion of
monitor_map_page's return value stored into monitor_ret_t.result. -/
def U64_MOD : Int := 18446744073709551616

/-- monitor_map_page from monitor.c: look up the PCD type of phys and
switch on it.  OK_NORMAL permits any flags; NK_NORMAL and NK_PGTABLE
reject a WRITABLE request with -1 (and otherwise force the flags
read-only, a dead store given that no mapping is installed); NK_IO and
any other value fall through.  The function then returns 0 without
walking any page table: the source explicitly leaves the actual mapping
unimplemented, so no PTE is created and no invlpg is issued. -/
def monitor_map_page (pcd : PcdState) (phys virt flags : Nat) : Int :=
  match pcd_get_type pcd phys with
  | 1 => if flags &&& X86_PTE_WRITABLE ≠ 0 then -1 else 0
  | 2 => if flags &&& X86_PTE_WRITABLE ≠ 0 then -1 else 0
  | _ => 0

/-- monitor_unmap_page from monitor.c: a placeholder that always
returns 0. -/
def monitor_unmap_page (virt : Nat) : Int := 0

/-- The inline stamping for loops of MONITOR_CALL_ALLOC_PGTABLE and
monitor_pmm_alloc: pcd_set_type on page i of the block, for i from the
start value for fuel iterations (fuel is instantiated with the loop trip
count 1 << order). -/
def pcd_stamp_loop (pcd : PcdState) (base ty i : Nat) : Nat → PcdState
  | 0 => pcd
  | fuel + 1 =>
    pcd_stamp_loop (pcd_set_type pcd (base + (i <<< PAGE_SHIFT)) ty) base ty (i + 1) fuel

/-- monitor_call_handler from monitor.c: the C-level dispatcher, which
runs with the MonitorView CR3 installed.  The uint8_t casts on order and
type arguments are modelled by mod 256. -/
def monitor_call_handler (s : MonitorState) (call : MonitorCall) (arg1 arg2 arg3 : Nat) :
    MonitorState × MonitorRet :=
  match call with
  | .allocPhys =>
    let r := pmm_alloc s.pmm (arg1 % 256)
    ({ s with pmm := r.1 }
    , { result := r.2, error := if r.2 = 0 then -1 else 0 })
  | .freePhys =>
    ({ s with pmm := pmm_free s.pmm arg1 (arg2 % 256) }, { result := 0, error := 0 })
  | .setPageType =>
    ({ s with pcd := pcd_set_type s.pcd arg1 (arg2 % 256) }, { result := 0, error := 0 })
  | .getPageType =>
    (s, { result := pcd_get_type s.pcd arg1, error := 0 })
  | .mapPage =>
    let res := ((monitor_map_page s.pcd arg1 arg2 arg3) % U64_MOD).toNat
    (s, { result := res, error := if res ≠ 0 then -1 else 0 })
  | .unmapPage =>
    let res := ((monitor_unmap_page arg1) % U64_MOD).toNat
    (s, { result := res, error := if res ≠ 0 then -1 else 0 })
  | .allocPgtable =>
    let r := pmm_alloc s.pmm (arg1 % 256)
    if r.2 ≠ 0 then
      ({ s with pmm := r.1, pcd := pcd_stamp_loop s.pcd r.2 PCD_TYPE_NK_PGTABLE 0 (1 <<< arg1) }
      , { result := r.2, error := 0 })
    else
      ({ s with pmm := r.1 }, { result := r.2, error := -1 })

/-- monitor_call from monitor.c: before monitor_init and from privileged
mode the dispatcher is called directly; from unprivileged mode
nk_entry_trampoline switches CR3 to the MonitorView, calls the same
dispatcher with the same arguments, and restores CR3.  In all three
paths the observable effect on the modelled state and the returned
monitor_ret_t is exactly monitor_call_handler. -/
def monitor_call (s : MonitorState) (call : MonitorCall) (arg1 arg2 arg3 : Nat) :
    MonitorState × MonitorRet :=
  monitor_call_handler s call arg1 arg2 arg3

/-- monitor_pmm_alloc from monitor.c: allocate through the monitor call,
then, when the result is non-NULL and the PCD is initialized, stamp each
page of the block OK_NORMAL. -/
def monitor_pmm_alloc (s : MonitorState) (order : Nat) : MonitorState × Nat :=
  let r := monitor_call s .allocPhys order 0 0
  let page := r.2.result
  if page ≠ 0 ∧ r.1.pcd.initialized = true then
    ({ r.1 with pcd := pcd_stamp_loop r.1.pcd page PCD_TYPE_OK_NORMAL 0 (1 <<< order) }, page)
  else (r.1, page)

/-- monitor_pmm_free from monitor.c: only forwards to
MONITOR_CALL_FREE_PHYS; it does not touch the PCD. -/
def monitor_pmm_free (s : MonitorState) (addr order : Nat) : MonitorState :=
  (monitor_call s .freePhys addr order 0).1

/-! ### Page-fault policy (src/arch/x86_64/idt.c) -/

/-- Page-fault error-code bit 0: the fault hit a present page. -/
def PF_ERR_PRESENT : Nat := 1

/-- Page-fault error-code bit 1: the fault was a write. -/
def PF_ERR_WRITE : Nat := 2

/-- The observable steps page_fault_handler can take.  The handler in
idt.c is straight-line code, so only the first two are ever emitted; the
recovery and cleanup constructors exist so that their absence is
expressible. -/
inductive PfAction where
  | callSystemShutdown
  | cliHltForever
  | attemptRecovery
  | cleanup
deriving DecidableEq, Repr

/-- What a run of the page-fault handler does: the actions it performs in
order, and whether it ever returns to the faulting context. -/
structure PfOutcome where
  actions : List PfAction
  returnsToFaultingContext : Bool
deriving DecidableEq, Repr

/-- page_fault_handler from idt.c: for every fault address, error code
and instruction pointer it invokes the halt/terminate upcall
system_shutdown() immediately and unconditionally, then sits in a
cli/hlt loop; it never inspects the error code, never attempts recovery
or cleanup, and never returns. -/
def page_fault_handler (faultAddr errorCode faultIp : Nat) : PfOutcome :=
  { actions := [.callSystemShutdown, .cliHltForever], returnsToFaultingContext := false }

/-! ### SMP bring-up (src/kernel/smp.c, src/kernel/smp.h) -/

/-- SMP_MAX_CPUS from smp.h. -/
def SMP_MAX_CPUS : Nat := 4

/-- CPU_STACK_SIZE from smp.h. -/
def CPU_STACK_SIZE : Nat := 16384

/-- CPU_OFFLINE. -/
def CPU_OFFLINE : Nat := 0

/-- CPU_BOOTING. -/
def CPU_BOOTING : Nat := 1

/-- CPU_ONLINE. -/
def CPU_ONLINE : Nat := 2

/-- CPU_READY. -/
def CPU_READY : Nat := 3

/-- smp_cpu_info_t. -/
structure CpuInfo where
  apicId : Nat
  cpuIndex : Nat
  state : Nat
  stackTop : Nat
deriving DecidableEq, Repr

/-- The shared SMP globals of smp.c: the bsp_init_done flag, the
atomically incremented next_cpu_id, the per-CPU current index, the
ready-CPU count, the cpu_info array and the link-time base address of
the ap_stacks array. -/
structure SmpState where
  bspInitDone : Bool
  nextCpuId : Nat
  currentCpuIndex : Nat
  readyCpus : Nat
  cpuInfo : Nat → CpuInfo
  apStacksBase : Nat

/-- The observable hardware-level steps of an AP's entry path.  The CR3
load, CR0.WP write and invariant-verifier run have constructors so that
their absence from the trace is expressible. -/
inductive ApAction where
  | waitBspInitDone
  | fetchAddCpuId
  | setStackPointer
  | loadOuterViewCr3
  | setCr0WP
  | runInvariantVerifier
  | markReady
  | hlt
deriving DecidableEq, Repr

/-- smp_mark_cpu_ready from smp.c: bounds-check, set CPU_READY,
increment ready_cpus. -/
def smp_mark_cpu_ready (s : SmpState) (i : Nat) : SmpState :=
  if i < SMP_MAX_CPUS then
    { s with cpuInfo := fun j => if j = i then { s.cpuInfo i with state := CPU_READY } else s.cpuInfo j
           , readyCpus := s.readyCpus + 1 }
  else s

/-- ap_start from smp.c: the AP spins until bsp_init_done is observed
set (modelled as none while the flag is clear, since the loop does not
terminate), fetch-adds next_cpu_id to obtain its index, rejects an
out-of-range index by halting, and otherwise publishes its index, sets
up its dedicated stack from ap_stacks, marks itself CPU_ONLINE, then
CPU_READY via smp_mark_cpu_ready, and halts.  The returned trace lists
the hardware-visible steps in program order: ap_start performs no CR3
load, no CR0.WP write and no invariant-verifier run. -/
def ap_start (s : SmpState) : Option (SmpState × List ApAction) :=
  if s.bspInitDone = false then none
  else
    let myIndex := s.nextCpuId
    let s1 := { s with nextCpuId := s.nextCpuId + 1 }
    if myIndex = 0 ∨ SMP_MAX_CPUS ≤ myIndex then
      some (s1, [.waitBspInitDone, .fetchAddCpuId, .hlt])
    else
      let s2 := { s1 with currentCpuIndex := myIndex }
      let stackTop := s2.apStacksBase + myIndex * CPU_STACK_SIZE + CPU_STACK_SIZE
      let upd : Nat → CpuInfo := fun j =>
        if j = myIndex then { s2.cpuInfo myIndex with stackTop := stackTop, state := CPU_ONLINE }
        else s2.cpuInfo j
      let s3 := { s2 with cpuInfo := upd }
      some (smp_mark_cpu_ready s3 myIndex
           , [.waitBspInitDone, .fetchAddCpuId, .setStackPointer, .markReady, .hlt])

/-! ### Shared concrete test fixtures -/

/-- A PMM state managing the single page [0x1000, 0x2000): one order-0
free block, free_pages = total_pages = 1. -/
def one_page_state : PmmState := pmm_add_region pmm_initial_state 0x1000 0x1000

/-- A PCD state before pcd_init has run. -/
def pcd_uninit : PcdState := { pages := [], maxPages := 0, basePage := 0, initialized := false }

/-- A monitor state whose PCD is not yet initialized (every query yields
the NK_NORMAL default) and whose page tables are empty. -/
def test_monitor_state : MonitorState :=
  { pmm := pmm_initial_state, pcd := pcd_uninit, unprivPtes := [], tlbInvalidations := [] }

/-- An initialized two-page PCD (frames 0 and 1, both NK_NORMAL). -/
def small_pcd : PcdState :=
  { pages := [pcd_default_entry, pcd_default_entry], maxPages := 2, basePage := 0, initialized := true }

/-- A monitor state with one free PMM page at 0x1000 and an initialized
PCD managing frames 0..1. -/
def w7_state : MonitorState :=
  { pmm := one_page_state, pcd := small_pcd, unprivPtes := [], tlbInvalidations := [] }

/-! ### Claim C1 -/

/-- Claim C1: for every physical address p whose PCD type is NK_NORMAL or
NK_PGTABLE and every virtual address v, monitor_call(MapPage, p, v, flags)
with flags including WRITABLE returns error = -1, and the call creates or
modifies no page-table entry (the whole monitor state is unchanged). -/
theorem monitor_mapPage_writable_nk_rejected (s : MonitorState) (p v flags : Nat)
    (hty : pcd_get_type s.pcd p = PCD_TYPE_NK_NORMAL ∨
           pcd_get_type s.pcd p = PCD_TYPE_NK_PGTABLE)
    (hw : flags &&& X86_PTE_WRITABLE ≠ 0) :
    (monitor_call s .mapPage p v flags).2.error = -1 ∧
    (monitor_call s .mapPage p v flags).1.unprivPtes = s.unprivPtes ∧
    (monitor_call s .mapPage p v flags).1 = s := by
  have hmap : monitor_map_page s.pcd p v flags = -1 := by
    rcases hty with h | h <;>
      simp [monitor_map_page, h, PCD_TYPE_NK_NORMAL, PCD_TYPE_NK_PGTABLE, hw]
  have hres : ((monitor_map_page s.pcd p v flags) % U64_MOD).toNat = 18446744073709551615 := by
    rw [hmap]; decide
  refine ⟨?_, rfl, rfl⟩
  simp [monitor_call, monitor_call_handler, hres]

/-- Witness for C1 at a concrete state: an uninitialized PCD reports
NK_NORMAL for frame 2, and a WRITABLE MapPage request on it is refused
with error -1 and no state change. -/
theorem monitor_mapPage_writable_nk_rejected_witness :
    (pcd_get_type test_monitor_state.pcd 0x2000 = PCD_TYPE_NK_NORMAL ∨
      pcd_get_type test_monitor_state.pcd 0x2000 = PCD_TYPE_NK_PGTABLE) ∧
    (2 : Nat) &&& X86_PTE_WRITABLE ≠ 0 ∧
    (monitor_call test_monitor_state .mapPage 0x2000 0xFFFF0000 2).2.error = -1 ∧
    (monitor_call test_monitor_state .mapPage 0x2000 0xFFFF0000 2).1.unprivPtes =
      test_monitor_state.unprivPtes ∧
    (monitor_call test_monitor_state .mapPage 0x2000 0xFFFF0000 2).1 = test_monitor_state :=
  ⟨Or.inl (by decide), by decide,
    monitor_mapPage_writable_nk_rejected test_monitor_state 0x2000 0xFFFF0000 2
      (Or.inl (by decide)) (by decide)⟩

/-! ### Claim C2 -/

/-- Claim C2 counterexample: a permitted MapPage request (non-writable
request on an NK_NORMAL page) succeeds with error 0, yet afterwards the
unprivileged view still contains no translation for the requested
virtual address and no invlpg was issued - monitor_map_page validates
the PCD type and returns without walking or updating any page table. -/
theorem monitor_mapPage_no_walk_cx :
    (monitor_call test_monitor_state .mapPage 0x2000 0xFFFF0000 0).2.error = 0 ∧
    (monitor_call test_monitor_state .mapPage 0x2000 0xFFFF0000 0).1.unprivPtes.lookup
      0xFFFF0000 = none ∧
    (monitor_call test_monitor_state .mapPage 0x2000 0xFFFF0000 0).1.tlbInvalidations = [] := by
  decide

/-- Claim C2 as amended: when monitor_map_page permits a mapping request
(OK_NORMAL or NK_IO target, or a non-writable request on an
NK_NORMAL/NK_PGTABLE page) it returns result 0 / error 0 and leaves the
whole monitor state - in particular the unprivileged page tables and the
TLB-invalidation trace - untouched: the page-table walk, intermediate
table allocation, PTE insertion and invlpg described by the spec are not
implemented. -/
theorem monitor_mapPage_permit_no_table_walk (s : MonitorState) (p v flags : Nat)
    (hperm : pcd_get_type s.pcd p = PCD_TYPE_OK_NORMAL ∨
             pcd_get_type s.pcd p = PCD_TYPE_NK_IO ∨
             ((pcd_get_type s.pcd p = PCD_TYPE_NK_NORMAL ∨
               pcd_get_type s.pcd p = PCD_TYPE_NK_PGTABLE) ∧
              flags &&& X86_PTE_WRITABLE = 0)) :
    (monitor_call s .mapPage p v flags).2 = { result := 0, error := 0 } ∧
    (monitor_call s .mapPage p v flags).1 = s := by
  have hmap : monitor_map_page s.pcd p v flags = 0 := by
    rcases hperm with h | h | ⟨h, hw⟩
    · simp [monitor_map_page, h, PCD_TYPE_OK_NORMAL]
    · simp [monitor_map_page, h, PCD_TYPE_NK_IO]
    · rcases h with h | h <;>
        simp [monitor_map_page, h, PCD_TYPE_NK_NORMAL, PCD_TYPE_NK_PGTABLE, hw]
  refine ⟨?_, rfl⟩
  simp [monitor_call, monitor_call_handler, hmap, U64_MOD]

/-- Witness for the amended C2 at a concrete state: a non-writable
request on an NK_NORMAL page returns {0, 0} and changes nothing. -/
theorem monitor_mapPage_permit_no_table_walk_witness :
    (monitor_call test_monitor_state .mapPage 0x2000 0xFFFF0000 0).2 =
      { result := 0, error := 0 } ∧
    (monitor_call test_monitor_state .mapPage 0x2000 0xFFFF0000 0).1 = test_monitor_state :=
  monitor_mapPage_permit_no_table_walk test_monitor_state 0x2000 0xFFFF0000 0
    (Or.inr (Or.inr ⟨Or.inl (by decide), by decide⟩))

/-! ### Claim C3 -/

/-- Claim C3: for every page fault whose error code indicates a write to
a present page, page_fault_handler invokes the halt/terminate upcall
(system_shutdown) as its first and only substantive action, attempts no
recovery and no cleanup, and never returns control to the faulting
context. -/
theorem page_fault_write_present_terminates (faultAddr errorCode faultIp : Nat)
    (hpresent : errorCode &&& PF_ERR_PRESENT ≠ 0)
    (hwrite : errorCode &&& PF_ERR_WRITE ≠ 0) :
    (page_fault_handler faultAddr errorCode faultIp).actions =
      [.callSystemShutdown, .cliHltForever] ∧
    PfAction.attemptRecovery ∉ (page_fault_handler faultAddr errorCode faultIp).actions ∧
    PfAction.cleanup ∉ (page_fault_handler faultAddr errorCode faultIp).actions ∧
    (page_fault_handler faultAddr errorCode faultIp).returnsToFaultingContext = false := by
  refine ⟨rfl, ?_, ?_, rfl⟩ <;> simp [page_fault_handler]

/-- Witness for C3 at the error code 3 (present write fault). -/
theorem page_fault_write_present_terminates_witness :
    (3 : Nat) &&& PF_ERR_PRESENT ≠ 0 ∧ (3 : Nat) &&& PF_ERR_WRITE ≠ 0 ∧
    ((page_fault_handler 0xDEADBEEF 3 0x100000).actions =
      [.callSystemShutdown, .cliHltForever] ∧
     PfAction.attemptRecovery ∉ (page_fault_handler 0xDEADBEEF 3 0x100000).actions ∧
     PfAction.cleanup ∉ (page_fault_handler 0xDEADBEEF 3 0x100000).actions ∧
     (page_fault_handler 0xDEADBEEF 3 0x100000).returnsToFaultingContext = false) :=
  ⟨by decide, by decide,
    page_fault_write_present_terminates 0xDEADBEEF 3 0x100000 (by decide) (by decide)⟩

/-! ### Claim C8 -/

/-- Rounding an address down to its page keeps the page frame number. -/
theorem phys_to_page_align_down (a : Nat) : phys_to_page (page_align_down a) = phys_to_page a := by
  simp only [phys_to_page, page_align_down, Nat.shiftLeft_eq, Nat.shiftRight_eq_div_pow]
  exact Nat.mul_div_cancel _ (by norm_num)

/-- pcd_is_managed is insensitive to the page-internal offset. -/
theorem pcd_is_managed_align_down (s : PcdState) (a : Nat) :
    pcd_is_managed s (page_align_down a) = pcd_is_managed s a := by
  simp [pcd_is_managed, phys_to_page_align_down]

/-- Claim C8: pcd_get_type is a total function (it is defined for every
physical address and every PCD state), and it returns NK_NORMAL both
before pcd_init completes and for every out-of-range (unmanaged)
address. -/
theorem pcd_get_type_total_default (s : PcdState) (a : Nat) :
    (s.initialized = false → pcd_get_type s a = PCD_TYPE_NK_NORMAL) ∧
    (pcd_is_managed s a = false → pcd_get_type s a = PCD_TYPE_NK_NORMAL) := by
  constructor
  · intro h
    simp [pcd_get_type, h]
  · intro h
    by_cases hi : s.initialized = false
    · simp [pcd_get_type, hi]
    · simp [pcd_get_type, hi, pcd_is_managed_align_down, h]

/-- Witness for C8: both defaults observed at concrete inputs (an
uninitialized PCD, and an address beyond the window of an initialized
one). -/
theorem pcd_get_type_total_default_witness :
    (pcd_uninit.initialized = false ∧ pcd_get_type pcd_uninit 0x5123 = PCD_TYPE_NK_NORMAL) ∧
    (pcd_is_managed small_pcd 0x2000 = false ∧
      pcd_get_type small_pcd 0x2000 = PCD_TYPE_NK_NORMAL) :=
  ⟨⟨by decide, (pcd_get_type_total_default pcd_uninit 0x5123).1 (by decide)⟩,
   ⟨by decide, (pcd_get_type_total_default small_pcd 0x2000).2 (by decide)⟩⟩

/-! ### Claim C10 -/

/-- pcd_set_type is the identity when the PCD is uninitialized, when the
type is out of range, or when the (aligned) address is unmanaged. -/
theorem pcd_set_type_noop (s : PcdState) (p t : Nat)
    (h : PCD_TYPE_MAX < t ∨ pcd_is_managed s p = false ∨ s.initialized = false) :
    pcd_set_type s p t = s := by
  rcases h with h | h | h
  · by_cases hi : s.initialized = false
    · simp [pcd_set_type, hi]
    · simp [pcd_set_type, hi, h]
  · by_cases hi : s.initialized = false
    · simp [pcd_set_type, hi]
    · by_cases ht : PCD_TYPE_MAX < t
      · simp [pcd_set_type, hi, ht]
      · simp [pcd_set_type, hi, ht, pcd_is_managed_align_down, h]
  · simp [pcd_set_type, h]

/-- Claim C10 counterexample: with t = 256 (outside 0..3) on a managed
frame of an initialized PCD, the call is NOT rejected: the uint8_t cast
truncates 256 to 0, the entry's type changes from NK_NORMAL to
OK_NORMAL, and the return value is still {0, 0}. -/
theorem set_page_type_truncation_cx :
    (monitor_call w7_state .setPageType 0 256 0).2 = { result := 0, error := 0 } ∧
    PCD_TYPE_MAX < 256 ∧
    pcd_get_type w7_state.pcd 0 = PCD_TYPE_NK_NORMAL ∧
    pcd_get_type (monitor_call w7_state .setPageType 0 256 0).1.pcd 0 = PCD_TYPE_OK_NORMAL := by
  decide

/-- Claim C10 as amended: monitor_call(SetPageType, p, t) always returns
{result = 0, error = 0}, so the caller cannot observe whether the entry
changed; the type argument is truncated to its low 8 bits, and when
t mod 256 is outside 0..3, p is unmanaged, or the PCD is uninitialized,
the request is silently dropped and the state is unchanged. -/
theorem set_page_type_silent (s : MonitorState) (p t : Nat) :
    (monitor_call s .setPageType p t 0).2 = { result := 0, error := 0 } ∧
    ((PCD_TYPE_MAX < t % 256 ∨ pcd_is_managed s.pcd p = false ∨ s.pcd.initialized = false) →
      (monitor_call s .setPageType p t 0).1 = s) := by
  refine ⟨rfl, fun h => ?_⟩
  show ({ s with pcd := pcd_set_type s.pcd p (t % 256) } : MonitorState) = s
  rw [pcd_set_type_noop s.pcd p (t % 256) h]

/-- Witness for the amended C10: an invalid type value 5 on a concrete
state returns {0, 0} and leaves the state intact. -/
theorem set_page_type_silent_witness :
    (monitor_call w7_state .setPageType 0 5 0).2 = { result := 0, error := 0 } ∧
    (monitor_call w7_state .setPageType 0 5 0).1 = w7_state :=
  ⟨(set_page_type_silent w7_state 0 5).1,
   (set_page_type_silent w7_state 0 5).2 (Or.inl (by decide))⟩

/-! ### Claim C4 -/

/-- Result of pmm_alloc(0) on the single-page PMM state. -/
def c4_pair : PmmState × Nat := pmm_alloc one_page_state 0

/-- State after the matching pmm_free of that allocation. -/
def c4_after : PmmState := pmm_free c4_pair.1 c4_pair.2 0

/-- Claim C4 failing input: starting from a PMM managing one page
(free_pages = total_pages = 1), the properly matched pair
a = pmm_alloc(0); pmm_free(a, 0) leaves pmm_get_free_pages at 2, not at
its initial value 1, and free + allocated = total is violated (1 page
total, 2 reported free).  pmm_alloc never decrements free_pages - the
remove_free_block helper that would is never called - while coalesce_block
adds 2^order again on every free. -/
theorem pmm_conservation_violated :
    pmm_get_free_pages one_page_state = 1 ∧
    pmm_get_total_pages one_page_state = 1 ∧
    c4_pair.2 = 0x1000 ∧
    pmm_get_free_pages c4_after = 2 := by decide

/-! ### Claim C5 -/

/-- The PMM over a single 128 MiB region at 0x8000000, nothing
reserved. -/
def c5_s0 : PmmState := pmm_add_region pmm_initial_state 0x8000000 0x8000000

/-- a = alloc(0). -/
def c5_r1 : PmmState × Nat := pmm_alloc c5_s0 0

/-- b = alloc(0). -/
def c5_r2 : PmmState × Nat := pmm_alloc c5_r1.1 0

/-- After free(a, 0). -/
def c5_s3 : PmmState := pmm_free c5_r2.1 c5_r1.2 0

/-- After free(b, 0). -/
def c5_s4 : PmmState := pmm_free c5_s3 c5_r2.2 0

/-- c = alloc(1). -/
def c5_r5 : PmmState × Nat := pmm_alloc c5_s4 1

set_option maxRecDepth 100000 in
/-- Claim C5 counterexample: in the 128 MiB scenario
a = alloc(0); b = alloc(0); free(a); free(b); c = alloc(1) yields
a = 0x8000000, b = 0x8001000 and c = 0x8200000, so c is NOT min(a, b). -/
theorem pmm_scenarioA_cx :
    c5_r1.2 = 0x8000000 ∧ c5_r2.2 = 0x8001000 ∧ c5_r5.2 = 0x8200000 ∧
    c5_r5.2 ≠ min c5_r1.2 c5_r2.2 := by decide

set_option maxRecDepth 100000 in
/-- Claim C5 as amended: the freed buddies coalesce all the way up to an
order-9 (2 MiB) block at min(a, b) - its low address is kept, as the
claim says - but that block is appended to the tail of the order-9 free
list, and alloc(1) splits the head of the first non-empty list, which is
the next 2 MiB block; hence c = min(a, b) + 0x200000 rather than
min(a, b). -/
theorem pmm_scenarioA_next_block :
    c5_r5.2 = min c5_r1.2 c5_r2.2 + 0x200000 ∧
    (flGet c5_s4.freeLists 9).list.getLast? =
      some { baseAddr := 0x8000000, order := 9, allocated := false } := by decide

/-! ### Claim C7 -/

/-- monitor_pmm_alloc(0) on w7_state: returns the page at 0x1000. -/
def c7_pair : MonitorState × Nat := monitor_pmm_alloc w7_state 0

/-- State after the matching monitor_pmm_free. -/
def c7_after : MonitorState := monitor_pmm_free c7_pair.1 c7_pair.2 0

/-- Claim C7 counterexample: monitor_pmm_alloc(0) on the previously free
managed frame 0x1000 does return it typed OK_NORMAL, but after
monitor_pmm_free the frame's PCD type is still OK_NORMAL - it is not
restored toward the NK_NORMAL default, because monitor_pmm_free only
forwards to MONITOR_CALL_FREE_PHYS and never touches the PCD. -/
theorem monitor_pmm_free_keeps_ok_normal_cx :
    c7_pair.2 = 0x1000 ∧
    pcd_get_type w7_state.pcd 0x1000 = PCD_TYPE_NK_NORMAL ∧
    pcd_get_type c7_pair.1.pcd 0x1000 = PCD_TYPE_OK_NORMAL ∧
    pcd_get_type c7_after.pcd 0x1000 = PCD_TYPE_OK_NORMAL ∧
    pcd_get_type c7_after.pcd 0x1000 ≠ PCD_TYPE_NK_NORMAL := by decide

/-! ### Claim C9 -/

/-- A concrete SMP state as seen by the first AP: the BSP has published
bsp_init_done and next_cpu_id is 1. -/
def w9_state : SmpState :=
  { bspInitDone := true, nextCpuId := 1, currentCpuIndex := 0, readyCpus := 0
  , cpuInfo := fun _ => { apicId := 0, cpuIndex := 0, state := CPU_OFFLINE, stackTop := 0 }
  , apStacksBase := 0x100000 }

/-- The state/trace pair produced by a terminating run of ap_start (the
default is irrelevant: it is only read when ap_start diverges waiting
for bsp_init_done). -/
def ap_start_run (s : SmpState) : SmpState × List ApAction :=
  (ap_start s).getD (s, [])

/-- The action trace of ap_start on that state. -/
def w9_trace : List ApAction := (ap_start_run w9_state).2

/-- Claim C9 counterexample: the execution of ap_start on a concrete
post-startup state performs exactly wait / fetch-add / stack setup /
mark-ready / hlt; it does not load the OuterView CR3, does not set
CR0.WP and does not run the invariant verifier, contradicting the
claimed step sequence. -/
theorem ap_start_no_monitor_steps_cx :
    (ap_start w9_state).isSome = true ∧
    w9_trace = [.waitBspInitDone, .fetchAddCpuId, .setStackPointer, .markReady, .hlt] ∧
    ApAction.loadOuterViewCr3 ∉ w9_trace ∧
    ApAction.setCr0WP ∉ w9_trace ∧
    ApAction.runInvariantVerifier ∉ w9_trace := by decide

/-- Claim C9 as amended: each AP, once it observes bsp_init_done and
obtains an in-range index from the fetch-add on next_cpu_id, sets up its
dedicated stack, publishes its index, reaches state CPU_READY (bumping
ready_cpus), and halts - and performs no OuterView-CR3 load, no CR0.WP
write and no invariant-verifier run (those steps exist only on the BSP
path in arch/x86_64/main.c). -/
theorem ap_start_sequence (s : SmpState) (hb : s.bspInitDone = true)
    (h0 : s.nextCpuId ≠ 0) (h4 : s.nextCpuId < SMP_MAX_CPUS) :
    (ap_start s).isSome = true ∧
    (ap_start_run s).2 = [.waitBspInitDone, .fetchAddCpuId, .setStackPointer, .markReady, .hlt] ∧
    ((ap_start_run s).1.cpuInfo s.nextCpuId).state = CPU_READY ∧
    ((ap_start_run s).1.cpuInfo s.nextCpuId).stackTop =
      s.apStacksBase + s.nextCpuId * CPU_STACK_SIZE + CPU_STACK_SIZE ∧
    (ap_start_run s).1.nextCpuId = s.nextCpuId + 1 ∧
    (ap_start_run s).1.currentCpuIndex = s.nextCpuId ∧
    (ap_start_run s).1.readyCpus = s.readyCpus + 1 ∧
    ApAction.loadOuterViewCr3 ∉ (ap_start_run s).2 ∧
    ApAction.setCr0WP ∉ (ap_start_run s).2 ∧
    ApAction.runInvariantVerifier ∉ (ap_start_run s).2 := by
  have hguard : ¬(s.nextCpuId = 0 ∨ SMP_MAX_CPUS ≤ s.nextCpuId) := by
    push_neg
    exact ⟨h0, h4⟩
  refine ⟨?_, ?_, ?_, ?_, ?_, ?_, ?_, ?_, ?_, ?_⟩ <;>
    simp [ap_start_run, ap_start, hb, hguard, smp_mark_cpu_ready, h4,
      CPU_READY, CPU_ONLINE]

/-- Witness for the amended C9 at the concrete state w9_state. -/
theorem ap_start_sequence_witness :
    w9_state.bspInitDone = true ∧ w9_state.nextCpuId ≠ 0 ∧
    w9_state.nextCpuId < SMP_MAX_CPUS ∧
    ((ap_start w9_state).isSome = true ∧
      (ap_start_run w9_state).2 =
        [.waitBspInitDone, .fetchAddCpuId, .setStackPointer, .markReady, .hlt] ∧
      ((ap_start_run w9_state).1.cpuInfo w9_state.nextCpuId).state = CPU_READY ∧
      ((ap_start_run w9_state).1.cpuInfo w9_state.nextCpuId).stackTop =
        w9_state.apStacksBase + w9_state.nextCpuId * CPU_STACK_SIZE + CPU_STACK_SIZE ∧
      (ap_start_run w9_state).1.nextCpuId = w9_state.nextCpuId + 1 ∧
      (ap_start_run w9_state).1.currentCpuIndex = w9_state.nextCpuId ∧
      (ap_start_run w9_state).1.readyCpus = w9_state.readyCpus + 1 ∧
      ApAction.loadOuterViewCr3 ∉ (ap_start_run w9_state).2 ∧
      ApAction.setCr0WP ∉ (ap_start_run w9_state).2 ∧
      ApAction.runInvariantVerifier ∉ (ap_start_run w9_state).2) :=
  ⟨rfl, by decide, by decide,
    ap_start_sequence w9_state rfl (by decide) (by decide)⟩

/-! ### Claim C6 -/

/-- The buddy-system alignment invariant on free lists: every block
linked into free_lists[o] has a base address that is a multiple of the
order-o block size.  pmm_add_region establishes it (it only inserts
aligned blocks) and every operation preserves it: splitting keeps the
low half in place and the high half is aligned to the smaller size, and
coalescing keeps the lower of two buddy addresses. -/
def blocksAligned (s : PmmState) : Prop :=
  ∀ o, o < 10 → ∀ b ∈ (flGet s.freeLists o).list, (PAGE_SIZE <<< o) ∣ b.baseAddr

/-- split_block never changes the base address of the block it returns:
the while loop only lowers the order (the low half stays in place) and
the tail section only flips the allocated flag. -/
theorem split_loop_baseAddr (fuel : Nat) :
    ∀ (s : PmmState) (b : BlockInfo) (target : Nat),
      ((split_loop s b target fuel).2).baseAddr = b.baseAddr := by
  induction fuel with
  | zero => intro s b target; rfl
  | succ fuel ih =>
    intro s b target
    simp only [split_loop]
    split
    · exact ih _ _ _
    · rfl

/-- Block sizes divide the sizes of all larger orders. -/
theorem page_size_shift_dvd {k o : Nat} (h : k ≤ o) :
    (PAGE_SIZE <<< k) ∣ (PAGE_SIZE <<< o) := by
  simp only [Nat.shiftLeft_eq]
  exact ⟨2 ^ (o - k), by rw [Nat.mul_assoc, ← Nat.pow_add, Nat.add_sub_cancel' h]⟩

/-- On an aligned state, any block that find_free_block's search loop
returns has a base address divisible by the requested block size. -/
theorem find_loop_some_aligned (fuel : Nat) :
    ∀ (o target : Nat) (s s' : PmmState) (b' : BlockInfo),
      blocksAligned s → target ≤ o →
      find_loop s o target fuel = (s', some b') →
      (PAGE_SIZE <<< target) ∣ b'.baseAddr := by
  induction fuel with
  | zero =>
    intro o target s s' b' _ _ h
    simp [find_loop] at h
  | succ fuel ih =>
    intro o target s s' b' hal hle h
    simp only [find_loop] at h
    by_cases ho : o ≤ MAX_ORDER
    · rw [if_pos ho] at h
      cases hlist : (flGet s.freeLists o).list with
      | nil =>
        rw [hlist] at h
        exact ih (o + 1) target s s' b' hal (Nat.le_succ_of_le hle) h
      | cons b tl =>
        rw [hlist] at h
        simp only [Prod.mk.injEq, Option.some.injEq] at h
        have hb : b ∈ (flGet s.freeLists o).list := by rw [hlist]; exact List.mem_cons_self _ _
        have halb : (PAGE_SIZE <<< o) ∣ b.baseAddr :=
          hal o (Nat.lt_succ_of_le ho) b hb
        have hbase : b'.baseAddr = b.baseAddr := by
          rw [← h.2, split_block, split_loop_baseAddr]
        rw [hbase]
        exact dvd_trans (page_size_shift_dvd hle) halb
    · rw [if_neg ho] at h
      simp at h
  
/-- When all free lists at orders >= o are empty, the search loop
finds nothing and leaves the state alone. -/
theorem find_loop_none (fuel : Nat) :
    ∀ (o target : Nat) (s : PmmState),
      (∀ q, o ≤ q → q < 10 → (flGet s.freeLists q).list = []) →
      find_loop s o target fuel = (s, none) := by
  induction fuel with
  | zero => intro o target s _; rfl
  | succ fuel ih =>
    intro o target s hempty
    simp only [find_loop]
    by_cases ho : o ≤ MAX_ORDER
    · rw [if_pos ho]
      rw [hempty o (Nat.le_refl o) (Nat.lt_succ_of_le ho)]
      exact ih (o + 1) target s fun q hq hq10 => hempty q (Nat.le_of_succ_le hq) hq10
    · rw [if_neg ho]

/-- Claim C6: on any state satisfying the free-list alignment invariant,
pmm_alloc(k) returns an address that is a multiple of 4096 << k (0, the
null failure sentinel, included); for k > MAX_ORDER = 9 it returns 0,
and when every free list of order k..9 is empty it returns 0. -/
theorem pmm_alloc_aligned_or_null (s : PmmState) (k : Nat) (hal : blocksAligned s) :
    (pmm_alloc s k).2 % (PAGE_SIZE <<< k) = 0 ∧
    (MAX_ORDER < k → (pmm_alloc s k).2 = 0) ∧
    ((∀ q, k ≤ q → q < 10 → (flGet s.freeLists q).list = []) → (pmm_alloc s k).2 = 0) := by
  refine ⟨?_, ?_, ?_⟩
  · by_cases hk : MAX_ORDER < k
    · simp [pmm_alloc, hk]
    · unfold pmm_alloc
      rw [if_neg hk]
      rcases hfind : find_free_block s k with ⟨s1, ob⟩
      cases ob with
      | none => simp
      | some b =>
        simp only
        obtain ⟨c, hc⟩ :=
          find_loop_some_aligned 10 k k s s1 b hal (Nat.le_refl k) hfind
        rw [hc]
        exact Nat.mul_mod_right _ _
  · intro hk
    simp [pmm_alloc, hk]
  · intro hempty
    by_cases hk : MAX_ORDER < k
    · simp [pmm_alloc, hk]
    · unfold pmm_alloc
      rw [if_neg hk]
      rw [show find_free_block s k = (s, none) from find_loop_none 10 k k s hempty]

/-- Witness for C6 at the concrete one-page state (its only free block
sits at 0x1000, aligned to every order it is filed under). -/
theorem pmm_alloc_aligned_or_null_witness :
    blocksAligned one_page_state ∧
    ((pmm_alloc one_page_state 0).2 % (PAGE_SIZE <<< 0) = 0 ∧
     (MAX_ORDER < 0 → (pmm_alloc one_page_state 0).2 = 0) ∧
     ((∀ q, 0 ≤ q → q < 10 → (flGet one_page_state.freeLists q).list = []) →
       (pmm_alloc one_page_state 0).2 = 0)) :=
  ⟨by unfold blocksAligned; decide
  , pmm_alloc_aligned_or_null one_page_state 0 (by unfold blocksAligned; decide)⟩

/-- List.getD after List.set at the same in-range index reads the new
value. -/
theorem list_getD_set_self (l : List PcdEntry) :
    ∀ (i : Nat) (x d : PcdEntry), i < l.length → (l.set i x).getD i d = x := by
  induction l with
  | nil => intro i x d h; simp at h
  | cons a l ih =>
    intro i x d h
    cases i with
    | zero => rfl
    | succ n =>
      simp only [List.set_cons_succ, List.getD_cons_succ]
      exact ih n x d (Nat.lt_of_succ_lt_succ h)

/-- List.getD after List.set at a different index reads the old value. -/
theorem list_getD_set_ne (l : List PcdEntry) :
    ∀ (i j : Nat) (x d : PcdEntry), i ≠ j → (l.set i x).getD j d = l.getD j d := by
  induction l with
  | nil => intro i j x d _; rfl
  | cons a l ih =>
    intro i j x d hne
    cases i with
    | zero =>
      cases j with
      | zero => exact absurd rfl hne
      | succ m => rfl
    | succ n =>
      cases j with
      | zero => rfl
      | succ m =>
        simp only [List.set_cons_succ, List.getD_cons_succ]
        exact ih n m x d (fun h => hne (congrArg Nat.succ h))

/-- pcd_set_type never changes the initialized flag, the window or the
array length. -/
theorem pcd_set_type_meta (s : PcdState) (p t : Nat) :
    (pcd_set_type s p t).initialized = s.initialized ∧
    (pcd_set_type s p t).basePage = s.basePage ∧
    (pcd_set_type s p t).maxPages = s.maxPages ∧
    (pcd_set_type s p t).pages.length = s.pages.length := by
  unfold pcd_set_type
  split
  · exact ⟨rfl, rfl, rfl, rfl⟩
  · split
    · exact ⟨rfl, rfl, rfl, rfl⟩
    · split
      · exact ⟨rfl, rfl, rfl, rfl⟩
      · exact ⟨rfl, rfl, rfl, by simp [pcd_pages_updated]⟩

/-- pcd_is_managed only depends on the window, which pcd_set_type
keeps. -/
theorem pcd_is_managed_set (s : PcdState) (p t a : Nat) :
    pcd_is_managed (pcd_set_type s p t) a = pcd_is_managed s a := by
  obtain ⟨-, h2, h3, -⟩ := pcd_set_type_meta s p t
  unfold pcd_is_managed
  rw [h2, h3]

/-- For a managed address the PCD index is the unclamped page offset,
which lies inside the window. -/
theorem pcd_get_index_managed (s : PcdState) (a : Nat) (h : pcd_is_managed s a = true) :
    pcd_get_index s a = phys_to_page a - s.basePage ∧
    phys_to_page a - s.basePage < s.maxPages := by
  unfold pcd_is_managed at h
  simp only [Bool.and_eq_true, decide_eq_true_eq] at h
  obtain ⟨h1, h2⟩ := h
  refine ⟨?_, by omega⟩
  unfold pcd_get_index
  rw [if_neg (by omega), if_neg (by omega)]

/-- The successful branch of pcd_set_type: with the PCD initialized, the
type valid and the aligned address managed, exactly the addressed entry
is overwritten. -/
theorem pcd_set_type_success (s : PcdState) (a ty : Nat)
    (hinit : s.initialized = true) (hty : ty ≤ PCD_TYPE_MAX)
    (hm : pcd_is_managed s (page_align_down a) = true) :
    pcd_set_type s a ty = { s with pages := pcd_pages_updated s a ty } := by
  unfold pcd_set_type
  rw [if_neg (by simp [hinit]), if_neg (Nat.not_lt.mpr hty), if_neg (by simp [hm])]

/-- Reading back right after pcd_set_type on a managed frame of an
initialized PCD with a valid type yields that type. -/
theorem pcd_get_type_set_same (s : PcdState) (a ty : Nat)
    (hinit : s.initialized = true) (hty : ty ≤ PCD_TYPE_MAX)
    (hm : pcd_is_managed s a = true) (hwf : s.pages.length = s.maxPages) :
    pcd_get_type (pcd_set_type s a ty) a = ty := by
  have hma : pcd_is_managed s (page_align_down a) = true := by
    rw [pcd_is_managed_align_down]; exact hm
  obtain ⟨hidx1, hidx2⟩ := pcd_get_index_managed s (page_align_down a) hma
  rw [pcd_set_type_success s a ty hinit hty hma]
  show (if s.initialized = false then PCD_TYPE_NK_NORMAL
    else if pcd_is_managed s (page_align_down a) = false then PCD_TYPE_NK_NORMAL
    else ((pcd_pages_updated s a ty).getD (pcd_get_index s (page_align_down a))
      pcd_default_entry).type) = ty
  rw [if_neg (by simp [hinit]), if_neg (by simp [hma])]
  unfold pcd_pages_updated
  rw [list_getD_set_self _ _ _ _ (by rw [hidx1, hwf]; exact hidx2)]
  rfl

/-- pcd_set_type on one page frame leaves the reported type of every
other page frame unchanged. -/
theorem pcd_get_type_set_other (s : PcdState) (a b ty : Nat)
    (hne : phys_to_page a ≠ phys_to_page b) :
    pcd_get_type (pcd_set_type s a ty) b = pcd_get_type s b := by
  by_cases hinit : s.initialized = false
  · conv_lhs => rw [pcd_set_type, if_pos hinit]
  · by_cases hty : PCD_TYPE_MAX < ty
    · conv_lhs => rw [pcd_set_type, if_neg hinit, if_pos hty]
    · by_cases hma : pcd_is_managed s (page_align_down a) = false
      · conv_lhs => rw [pcd_set_type, if_neg hinit, if_neg hty, if_pos hma]
      · rw [Bool.not_eq_false] at hma
        obtain ⟨hidxa1, hidxa2⟩ := pcd_get_index_managed s (page_align_down a) hma
        have hinit' : s.initialized = true := by
          revert hinit; cases s.initialized <;> simp
        rw [pcd_set_type_success s a ty hinit' (Nat.not_lt.mp hty) hma]
        show (if s.initialized = false then PCD_TYPE_NK_NORMAL
          else if pcd_is_managed s (page_align_down b) = false then PCD_TYPE_NK_NORMAL
          else ((pcd_pages_updated s a ty).getD (pcd_get_index s (page_align_down b))
            pcd_default_entry).type) = pcd_get_type s b
        unfold pcd_get_type
        by_cases hmb : pcd_is_managed s (page_align_down b) = false
        · rw [if_neg hinit, if_neg hinit, if_pos hmb, if_pos hmb]
        · rw [Bool.not_eq_false] at hmb
          obtain ⟨hidxb1, hidxb2⟩ := pcd_get_index_managed s (page_align_down b) hmb
          rw [if_neg hinit, if_neg hinit, if_neg (by simp [hmb]), if_neg (by simp [hmb])]
          unfold pcd_pages_updated
          rw [list_getD_set_ne]
          have hba : s.basePage ≤ phys_to_page (page_align_down a) := by
            unfold pcd_is_managed at hma
            simp only [Bool.and_eq_true, decide_eq_true_eq] at hma
            exact hma.1
          have hbb : s.basePage ≤ phys_to_page (page_align_down b) := by
            unfold pcd_is_managed at hmb
            simp only [Bool.and_eq_true, decide_eq_true_eq] at hmb
            exact hmb.1
          have hne' : phys_to_page (page_align_down a) ≠ phys_to_page (page_align_down b) := by
            rw [phys_to_page_align_down, phys_to_page_align_down]; exact hne
          rw [hidxa1, hidxb1]
          omega

/-- Adding i pages to a page-aligned base advances the page frame number
by i. -/
theorem aligned_page_add (base i : Nat) (hb : base % PAGE_SIZE = 0) :
    phys_to_page (base + (i <<< PAGE_SHIFT)) = phys_to_page base + i := by
  obtain ⟨k, hk⟩ := Nat.dvd_of_mod_eq_zero hb
  subst hk
  simp only [phys_to_page, Nat.shiftLeft_eq, Nat.shiftRight_eq_div_pow, PAGE_SHIFT, PAGE_SIZE]
  rw [show (4096 : Nat) = 2 ^ 12 from by norm_num]
  rw [Nat.add_mul_div_right _ _ (by positivity : (0 : Nat) < 2 ^ 12)]

/-- The stamping loop never changes the initialized flag, the window or
the array length. -/
theorem pcd_stamp_loop_meta (base ty : Nat) : ∀ (fuel i : Nat) (pcd : PcdState),
    (pcd_stamp_loop pcd base ty i fuel).initialized = pcd.initialized ∧
    (pcd_stamp_loop pcd base ty i fuel).basePage = pcd.basePage ∧
    (pcd_stamp_loop pcd base ty i fuel).maxPages = pcd.maxPages ∧
    (pcd_stamp_loop pcd base ty i fuel).pages.length = pcd.pages.length := by
  intro fuel
  induction fuel with
  | zero => intro i pcd; exact ⟨rfl, rfl, rfl, rfl⟩
  | succ fuel ih =>
    intro i pcd
    simp only [pcd_stamp_loop]
    obtain ⟨m1, m2, m3, m4⟩ := pcd_set_type_meta pcd (base + (i <<< PAGE_SHIFT)) ty
    obtain ⟨l1, l2, l3, l4⟩ := ih (i + 1) (pcd_set_type pcd (base + (i <<< PAGE_SHIFT)) ty)
    exact ⟨l1.trans m1, l2.trans m2, l3.trans m3, l4.trans m4⟩

/-- The stamping loop leaves the type of any page frame outside the
stamped range unchanged. -/
theorem pcd_stamp_loop_get_other (base ty : Nat) : ∀ (fuel i : Nat) (pcd : PcdState) (b : Nat),
    (∀ j, i ≤ j → j < i + fuel → phys_to_page (base + (j <<< PAGE_SHIFT)) ≠ phys_to_page b) →
    pcd_get_type (pcd_stamp_loop pcd base ty i fuel) b = pcd_get_type pcd b := by
  intro fuel
  induction fuel with
  | zero => intro i pcd b _; rfl
  | succ fuel ih =>
    intro i pcd b h
    simp only [pcd_stamp_loop]
    rw [ih (i + 1) _ b (fun j hj hj2 => h j (by omega) (by omega))]
    exact pcd_get_type_set_other pcd (base + (i <<< PAGE_SHIFT)) b ty
      (h i (Nat.le_refl i) (by omega))

/-- After the stamping loop runs over a page-aligned block of managed
frames of an initialized PCD, every page of the block reports the
stamped type. -/
theorem pcd_stamp_loop_get_stamped (base ty : Nat) (hb : base % PAGE_SIZE = 0)
    (hty : ty ≤ PCD_TYPE_MAX) : ∀ (fuel i : Nat) (pcd : PcdState),
    pcd.initialized = true → pcd.pages.length = pcd.maxPages →
    (∀ j, i ≤ j → j < i + fuel → pcd_is_managed pcd (base + (j <<< PAGE_SHIFT)) = true) →
    ∀ j, i ≤ j → j < i + fuel →
      pcd_get_type (pcd_stamp_loop pcd base ty i fuel) (base + (j <<< PAGE_SHIFT)) = ty := by
  intro fuel
  induction fuel with
  | zero => intro i pcd _ _ _ j hj1 hj2; omega
  | succ fuel ih =>
    intro i pcd hinit hwf hman j hj1 hj2
    simp only [pcd_stamp_loop]
    rcases Nat.eq_or_lt_of_le hj1 with heq | hlt
    · subst heq
      rw [pcd_stamp_loop_get_other base ty fuel (i + 1) _ _ ?hdist]
      · exact pcd_get_type_set_same pcd (base + (i <<< PAGE_SHIFT)) ty hinit hty
          (hman i (Nat.le_refl i) (by omega)) hwf
      case hdist =>
        intro j2 hj2a hj2b
        rw [aligned_page_add base j2 hb, aligned_page_add base i hb]
        omega
    · obtain ⟨m1, -, m3, m4⟩ := pcd_set_type_meta pcd (base + (i <<< PAGE_SHIFT)) ty
      refine ih (i + 1) (pcd_set_type pcd (base + (i <<< PAGE_SHIFT)) ty)
        (by rw [m1]; exact hinit) (by rw [m4, m3]; exact hwf) ?_ j hlt (by omega)
      intro j2 hj2a hj2b
      rw [pcd_is_managed_set]
      exact hman j2 (by omega) (by omega)

/-- Claim C7 as amended: when monitor_pmm_alloc(order) succeeds (non-null
result) on a page-aligned block of PCD-managed frames with the PCD
initialized and well-formed, every page of the returned block has PCD
type OK_NORMAL afterwards; monitor_pmm_free, however, leaves the PCD of
its argument state completely unchanged - the freed pages keep whatever
type they had (OK_NORMAL), and are not restored toward the NK_NORMAL
default. -/
theorem monitor_pmm_alloc_stamps_ok_normal (s : MonitorState) (order : Nat)
    (hinit : s.pcd.initialized = true)
    (hwf : s.pcd.pages.length = s.pcd.maxPages)
    (hpage : (monitor_pmm_alloc s order).2 ≠ 0)
    (halign : (monitor_pmm_alloc s order).2 % PAGE_SIZE = 0)
    (hman : ∀ i, i < (1 <<< order) →
      pcd_is_managed s.pcd ((monitor_pmm_alloc s order).2 + (i <<< PAGE_SHIFT)) = true) :
    (∀ i, i < (1 <<< order) →
      pcd_get_type (monitor_pmm_alloc s order).1.pcd
        ((monitor_pmm_alloc s order).2 + (i <<< PAGE_SHIFT)) = PCD_TYPE_OK_NORMAL) ∧
    (∀ (t : MonitorState) (a o : Nat), (monitor_pmm_free t a o).pcd = t.pcd) := by
  refine ⟨?_, fun t a o => rfl⟩
  intro i hi
  have h2 : (monitor_pmm_alloc s order).2 = (monitor_call s .allocPhys order 0 0).2.result := by
    simp only [monitor_pmm_alloc]
    split <;> rfl
  have h1 : (monitor_pmm_alloc s order).1.pcd =
      pcd_stamp_loop s.pcd ((monitor_call s .allocPhys order 0 0).2.result)
        PCD_TYPE_OK_NORMAL 0 (1 <<< order) := by
    simp only [monitor_pmm_alloc]
    rw [if_pos ⟨by rw [← h2]; exact hpage, hinit⟩]
    rfl
  rw [h2] at halign hman
  rw [h1, h2]
  exact pcd_stamp_loop_get_stamped _ PCD_TYPE_OK_NORMAL halign (by decide)
    (1 <<< order) 0 s.pcd hinit hwf (fun j _ hj2 => hman j (by omega)) i (Nat.zero_le i)
    (by omega)

/-- Witness for the amended C7: on the concrete state w7_state the
single allocated page comes back typed OK_NORMAL, and monitor_pmm_free
leaves the PCD untouched. -/
theorem monitor_pmm_alloc_stamps_ok_normal_witness :
    pcd_get_type (monitor_pmm_alloc w7_state 0).1.pcd
      ((monitor_pmm_alloc w7_state 0).2 + (0 <<< PAGE_SHIFT)) = PCD_TYPE_OK_NORMAL ∧
    (monitor_pmm_free w7_state 0x1000 0).pcd = w7_state.pcd :=
  ⟨(monitor_pmm_alloc_stamps_ok_normal w7_state 0 (by decide) (by decide) (by decide)
      (by decide) (by decide)).1 0 (by decide),
   (monitor_pmm_alloc_stamps_ok_normal w7_state 0 (by decide) (by decide) (by decide)
      (by decide) (by decide)).2 w7_state 0x1000 0⟩
